import Mathlib

/-!
Verification of the iq-agent event collection, signed delivery and retry
pipeline. The definitions below are shallow embeddings of the Python
sources under src/iq/agent: the delivery attempt loop shared by
JournaldMonitor.run and ShellExecutor.run, the single-shot vitals
delivery in VitalsMonitor.run, the journal dedup filter, the event
normalizers, the shell executor and the signing header construction.
-/

/-! ## Delivery model

Embeds the attempt loop of monitors.py lines 123-139 and executors.py
lines 138-154. An HTTP response is modelled by its status code and the
shape of its body as seen by response.json() followed by the
subscription error[\x22detail\x22]: either the body parses as JSON and
carries a detail field, or it parses without one (the subscription
raises KeyError), or it does not parse at all (response.json() raises,
which also covers a non-JSON content type). An absent response models a
transport error raised by the POST itself. -/

inductive ErrorBody where
  /-- The body parses as JSON and contains a detail field. -/
  | jsonDetail (detail : String)
  /-- The body parses as JSON but has no detail member: error[\x22detail\x22] raises. -/
  | jsonOther
  /-- The body cannot be parsed: response.json() raises. -/
  | notJson
deriving DecidableEq

structure HttpResponse where
  status : Nat
  body : ErrorBody
deriving DecidableEq

/-- Extraction of the detail field of an error body; none means the
extraction raises in the Python code. -/
def detailOf : ErrorBody → Option String
  | .jsonDetail d => some d
  | .jsonOther => none
  | .notJson => none

/-- The three ways one tenacity attempt can end in the source: the block
completes with status 201 (success), the block completes after logging a
well-formed error response (no exception, so tenacity stops), or an
exception escapes the block (transport error, json parse error, missing
detail member) and tenacity records a failed attempt. -/
inductive AttemptOutcome where
  | success
  | loggedError (status : Nat) (detail : String)
  | raised
deriving DecidableEq

/-- Outcome of one attempt body, monitors.py lines 126-137: POST, then if
status is not 201 read the JSON body and log its detail member. -/
def attemptOutcome (resp : Option HttpResponse) : AttemptOutcome :=
  match resp with
  | none => .raised
  | some r =>
    if r.status = 201 then .success
    else
      match r.body with
      | .jsonDetail d => .loggedError r.status d
      | .jsonOther => .raised
      | .notJson => .raised

/-- Result of a whole delivery. The calls field counts the POST calls
made. delivered: an attempt completed with status 201. handledError: an
attempt completed after logging a non-201 response with a parseable
detail, which ends the tenacity loop without a retry. exhausted: the
last allowed attempt raised, tenacity raised RetryError, and the except
clause logged it. -/
inductive DeliveryResult where
  | delivered (calls : Nat)
  | handledError (calls : Nat) (status : Nat) (detail : String)
  | exhausted (calls : Nat)
deriving DecidableEq

def deliveryCalls : DeliveryResult → Nat
  | .delivered k => k
  | .handledError k _ _ => k
  | .exhausted k => k

/-- The tenacity AsyncRetrying loop with stop_after_attempt maxA. The
transport gives the response of each attempt by index, k counts the
attempts already made, and fuel bounds the recursion (it is started at
maxA and never runs out before the stop condition). After a raising
attempt, tenacity stops and raises RetryError when the attempt number
has reached maxA; note that the first attempt always runs, matching
tenacity even for a zero ceiling. -/
def deliverGo (t : Nat → Option HttpResponse) (maxA : Nat) : Nat → Nat → DeliveryResult
  | k, 0 =>
    match attemptOutcome (t k) with
    | .success => .delivered (k + 1)
    | .loggedError s d => .handledError (k + 1) s d
    | .raised => .exhausted (k + 1)
  | k, fuel + 1 =>
    match attemptOutcome (t k) with
    | .success => .delivered (k + 1)
    | .loggedError s d => .handledError (k + 1) s d
    | .raised =>
      if maxA ≤ k + 1 then .exhausted (k + 1)
      else deliverGo t maxA (k + 1) fuel

/-- One delivery of a signed payload with the attempt ceiling maxA,
embedding the try block of monitors.py lines 123-139 and executors.py
lines 138-154. -/
def deliver (t : Nat → Option HttpResponse) (maxA : Nat) : DeliveryResult :=
  deliverGo t maxA 0 maxA

/-! ## Vitals delivery

VitalsMonitor.run, monitors.py lines 482-517: a single POST with no
retry machinery and no exception handler around it. -/

/-- Outcome of the vitals delivery. raisedOut means an exception leaves
VitalsMonitor.run: the POST itself raised, or the non-201 branch failed
to parse the error body or to find its detail member. -/
inductive VitalsRunResult where
  | delivered
  | loggedError (status : Nat) (detail : String)
  | raisedOut
deriving DecidableEq

/-- The delivery portion of VitalsMonitor.run, monitors.py lines
506-517. There is no retry loop and no try clause: any exception
propagates to the caller. -/
def vitalsRun (resp : Option HttpResponse) : VitalsRunResult :=
  match resp with
  | none => .raisedOut
  | some r =>
    if r.status = 201 then .delivered
    else
      match detailOf r.body with
      | some d => .loggedError r.status d
      | none => .raisedOut

/-! ## Data model

models.py: LogProperty, LogEvent, ServerCommand (only the member the
agent reads), ServerCommandResult. The event_date member of LogEvent has
a default factory and is not touched by any claim, so it is elided.
Python datetime values are modelled by their calendar fields; isoformat
renders them the way datetime.isoformat does. -/

structure PyDateTime where
  year : Nat
  month : Nat
  day : Nat
  hour : Nat
  minute : Nat
  second : Nat
  microsecond : Nat
deriving DecidableEq

/-- Left pad a numeral with zeros, as the 0>=w d format specifiers of
datetime.isoformat do. -/
def padNat (width n : Nat) : String :=
  let s := toString n
  String.mk (List.replicate (width - s.length) '0') ++ s

/-- datetime.isoformat: YYYY-MM-DDTHH:MM:SS with a six digit fractional
part appended only when the microsecond member is nonzero. -/
def isoformat (t : PyDateTime) : String :=
  padNat 4 t.year ++ "-" ++ padNat 2 t.month ++ "-" ++ padNat 2 t.day ++ "T" ++
    padNat 2 t.hour ++ ":" ++ padNat 2 t.minute ++ ":" ++ padNat 2 t.second ++
    (if t.microsecond = 0 then "" else "." ++ padNat 6 t.microsecond)

/-- Proleptic Gregorian leap year test, as datetime uses. -/
def isLeapYear (y : Nat) : Bool :=
  y % 4 = 0 && (y % 100 ≠ 0 || y % 400 = 0)

/-- Days in the months strictly before month m of a common year. -/
def daysBeforeMonth (m : Nat) : Nat :=
  [0, 31, 59, 90, 120, 151, 181, 212, 243, 273, 304, 334].getD (m - 1) 0

/-- datetime.toordinal: the day number of a date in the proleptic
Gregorian calendar, day 1 being January 1 of year 1. -/
def toOrdinal (t : PyDateTime) : Int :=
  365 * ((t.year : Int) - 1) + ((t.year : Int) - 1) / 4 - ((t.year : Int) - 1) / 100 +
    ((t.year : Int) - 1) / 400 +
    (daysBeforeMonth t.month : Int) +
    (if isLeapYear t.year && decide (2 < t.month) then 1 else 0) +
    (t.day : Int)

/-- A datetime as a count of microseconds, so that the difference of two
datetimes is the timedelta between them in microseconds. -/
def dtToMicros (t : PyDateTime) : Int :=
  toOrdinal t * 86400000000 +
    ((t.hour : Int) * 3600 + (t.minute : Int) * 60 + (t.second : Int)) * 1000000 +
    (t.microsecond : Int)

/-- timedelta.total_seconds of a microsecond count, as an exact rational. -/
def totalSeconds (micros : Int) : ℚ :=
  (micros : ℚ) / 1000000

/-- A Python value held in a raw journal or event log record: either a
datetime or some other object carried together with its default string
conversion (for a str value that conversion is the string itself). -/
inductive JValue where
  | vDatetime (t : PyDateTime)
  | vStr (s : String)
  | vOther (pyStr : String)
deriving DecidableEq

/-- The value rendering of the normalizers, monitors.py lines 156-159 and
event_monitor.py lines 188-191: a datetime is rendered by isoformat,
anything else by str. -/
def renderValue : JValue → String
  | .vDatetime t => isoformat t
  | .vStr s => s
  | .vOther s => s

structure LogProperty where
  name : String
  value : String
deriving DecidableEq

/-- models.py LogEvent, without the defaulted event_date member. -/
structure LogEvent where
  source : String
  properties : List LogProperty
deriving DecidableEq

namespace JournaldMonitor

/-- JournaldMonitor.to_log_event, monitors.py lines 144-171: iterate the
entry in encounter order, lower case each field name, render each value,
append every resulting property, and tag the event with source journald. -/
def to_log_event : List (String × JValue) → List LogProperty
  | [] => []
  | (name, value) :: rest =>
    { name := name.toLower, value := renderValue value } :: to_log_event rest

/-- The LogEvent built by JournaldMonitor.to_log_event. -/
def toLogEventFull (entry : List (String × JValue)) : LogEvent :=
  { source := "journald", properties := to_log_event entry }

/-- One value returned by reader.get_next: either None (skipped) or a
journal entry given as its fields in encounter order. -/
inductive JEntry where
  | invalid
  | entry (fields : List (String × JValue))

/-- The MESSAGE text of an entry, none when the poll item is invalid or
the MESSAGE field is absent. Journald MESSAGE values are strings, so the
embedding reads only string values. -/
def entryMessage : JEntry → Option String
  | .invalid => none
  | .entry fields =>
    match fields.lookup "MESSAGE" with
    | some (JValue.vStr s) => some s
    | _ => none

/-- The state JournaldMonitor.run threads through one monitoring run:
the dedupe set (a list with membership semantics), the MESSAGE texts
submitted for delivery in order, and the delivery results in order. -/
structure RunState where
  dedupe : List String
  emitted : List String
  results : List DeliveryResult

/-- Processing of one poll item, monitors.py lines 88-142: skip an
invalid entry, an entry without MESSAGE, an empty MESSAGE, or a MESSAGE
already in the dedupe set; otherwise serialize, sign and deliver the
entry with the retry ceiling, then add the MESSAGE to the dedupe set
regardless of the delivery outcome. The transport argument assigns a
response sequence to each delivery by its index in the run. -/
def runStep (t : Nat → Nat → Option HttpResponse) (retries : Nat)
    (st : RunState) (e : JEntry) : RunState :=
  match entryMessage e with
  | none => st
  | some m =>
    if m = "" then st
    else if m ∈ st.dedupe then st
    else
      { dedupe := m :: st.dedupe,
        emitted := st.emitted ++ [m],
        results := st.results ++ [deliver (t st.results.length) retries] }

/-- One monitoring run over a finite sequence of poll items, starting
from the empty dedupe set of monitors.py line 85. -/
def run (t : Nat → Nat → Option HttpResponse) (retries : Nat)
    (entries : List JEntry) : RunState :=
  entries.foldl (runStep t retries) ⟨[], [], []⟩

end JournaldMonitor

/-! ## Security provider and signed request construction

security.py lines 41-51 and the header construction of monitors.py lines
109-131 and executors.py lines 127-146. The RSA-SHA256 primitive of
OpenSSL crypto.sign is kept abstract as a function from payload bytes to
signature bytes; the base64 encoding applied on top of it is concrete. -/

def base64Alphabet : List Char :=
  "ABCDEFGHIJKLMNOPQRSTUVWXYZabcdefghijklmnopqrstuvwxyz0123456789+/".toList

def base64Char (n : Nat) : Char :=
  base64Alphabet.getD n 'A'

/-- Standard base64 of a byte sequence, with padding. -/
def base64Encode : List Nat → List Char
  | [] => []
  | [a] =>
    [base64Char (a / 4 % 64), base64Char (a % 4 * 16), '=', '=']
  | [a, b] =>
    [base64Char (a / 4 % 64), base64Char (a % 4 * 16 + b / 16), base64Char (b % 16 * 4), '=']
  | a :: b :: c :: rest =>
    base64Char (a / 4 % 64) :: base64Char (a % 4 * 16 + b / 16) ::
      base64Char (b % 16 * 4 + c / 64) :: base64Char (c % 64) :: base64Encode rest

namespace SecurityProvider

/-- SecurityProvider.sign, security.py lines 41-51: sign the payload
bytes with the private key under RSA-SHA256 and return the base64 of the
signature bytes. The rsa argument stands for OpenSSL crypto.sign with
the loaded key. -/
def sign (rsa : List Nat → List Nat) (payload : List Nat) : String :=
  String.mk (base64Encode (rsa payload))

end SecurityProvider

structure HttpRequest where
  url : String
  headers : List (String × String)
  body : List Nat
deriving DecidableEq

/-- The default headers built in the monitor constructors, monitors.py
lines 47-50 and executors.py lines 39-42. -/
def defaultHeaders (token clientId : String) : List (String × String) :=
  [("Authorization", "Bearer " ++ token), ("Client-ID", clientId)]

/-- The signed POST request built by the monitors and the executor,
monitors.py lines 109-131: serialize the payload once, sign those exact
bytes, copy the default headers, add Content-Type and Signature, and
post the same payload bytes as the body. -/
def buildSignedRequest (sign : List Nat → String) (token clientId url : String)
    (payload : List Nat) : HttpRequest :=
  { url := url,
    headers := defaultHeaders token clientId ++
      [("Content-Type", "application/json"), ("Signature", sign payload)],
    body := payload }

/-! ## Shell executor

executors.py ShellExecutor. -/

/-- subprocess.CompletedProcess as the executor reads it. -/
structure CompletedProc where
  returncode : Int
  stdout : String
  stderr : String

/-- models.py ServerCommand, reduced to the member the executor reads. -/
structure ServerCommand where
  command : String

/-- models.py ServerCommandResult. -/
structure ServerCommandResult where
  start_date : PyDateTime
  end_date : PyDateTime
  total_time : ℚ
  exit_code : Int
  stdout : Option String
  stderr : Option String

namespace ShellExecutor

/-- ShellExecutor.execute, executors.py lines 59-88: record the start
time, run the command text through the shell with check disabled (so a
nonzero exit never raises), record the end time, and build the result
from the observed exit code, captured output and the elapsed wall clock
time in seconds. The shell argument stands for subprocess.run; the
clock readings are passed in as the two datetimes it observed. -/
def execute (shell : String → CompletedProc) (start stop : PyDateTime)
    (command : ServerCommand) : ServerCommandResult :=
  let process := shell command.command
  { start_date := start,
    end_date := stop,
    total_time := totalSeconds (dtToMicros stop - dtToMicros start),
    exit_code := process.returncode,
    stdout := some process.stdout,
    stderr := some process.stderr }

end ShellExecutor

/-! ## Vitals collection

monitors.py VitalsMonitor.collect_vitals and get_disk_info. The
sub-probes are external psutil and platform calls; each is passed in as
an Except value, error meaning the probe raised. The human readable size
rendering of get_size is elided (it only affects the textual form of the
numbers, and fails only above the pebibyte range); partition entries
keep the raw counters. -/

structure DiskPartition where
  device : String
  mountpoint : String
  fstype : String
deriving DecidableEq

structure DiskUsage where
  total : Nat
  used : Nat
  free : Nat
  percent : ℚ
deriving DecidableEq

structure PartitionEntry where
  device : String
  mountpoint : String
  fstype : String
  total_size : Nat
  used : Nat
  free : Nat
  percentage : ℚ
deriving DecidableEq

def partitionEntry (p : DiskPartition) (u : DiskUsage) : PartitionEntry :=
  { device := p.device, mountpoint := p.mountpoint, fstype := p.fstype,
    total_size := u.total, used := u.used, free := u.free, percentage := u.percent }

/-- The read and write counters of psutil.disk_io_counters; the source
stores them under the disk_io key. -/
structure DiskCounters where
  total_read : Nat
  total_write : Nat
deriving DecidableEq

structure DiskInfo where
  partitions : List PartitionEntry
  counters : DiskCounters
deriving DecidableEq

namespace VitalsMonitor

/-- The partition loop of get_disk_info, monitors.py lines 329-343: for
each partition query its usage; a PermissionError is logged and the
partition skipped with continue; otherwise its entry is appended. -/
def diskEntries : List (DiskPartition × Except Unit DiskUsage) → List PartitionEntry
  | [] => []
  | (_, .error _) :: rest => diskEntries rest
  | (p, .ok u) :: rest => partitionEntry p u :: diskEntries rest

/-- VitalsMonitor.get_disk_info, monitors.py lines 322-349. -/
def get_disk_info (parts : List (DiskPartition × Except Unit DiskUsage))
    (readBytes writeBytes : Nat) : DiskInfo :=
  { partitions := diskEntries parts,
    counters := { total_read := readBytes, total_write := writeBytes } }

/-- A value of the vitals tree: a sub-probe result blob, the disk
section, a package listing, or the error dictionary a failed package
probe is replaced with. -/
inductive VitalsValue where
  | blob (s : String)
  | disk (d : DiskInfo)
  | pkgs (rows : List (List String))
  | pkgError (msg : String)
deriving DecidableEq

/-- The package probes, monitors.py lines 390-465: each catches every
exception and substitutes an error dictionary holding str(error). -/
def packageValue : Except String (List (List String)) → VitalsValue
  | .ok rows => .pkgs rows
  | .error e => .pkgError e

/-- The external probe results one collection cycle consumes. An error
means the probe raised. A package probe is none when has_command finds
the tool absent. -/
structure Sources where
  system_info : Except String String
  boot_time : Except String String
  cpu_info : Except String String
  memory_info : Except String String
  swap_info : Except String String
  disk_parts : List (DiskPartition × Except Unit DiskUsage)
  disk_read : Nat
  disk_write : Nat
  network_info : Except String String
  pip : Option (Except String (List (List String)))
  dpkg : Option (Except String (List (List String)))
  rpm : Option (Except String (List (List String)))

/-- VitalsMonitor.collect_vitals, monitors.py lines 200-226: the info
dictionary literal evaluates the seven probes in order with no handler
around them, so the first raising probe aborts the whole collection;
only the per-partition permission errors inside get_disk_info and the
exceptions inside the package probes are contained. The conditional
package sections are appended after the literal. -/
def packageSections (src : Sources) (base : List (String × VitalsValue)) :
    List (String × VitalsValue) :=
  let withPip := match src.pip with
    | none => base
    | some pr => base ++ [("python_packages", packageValue pr)]
  let withDeb := match src.dpkg with
    | none => withPip
    | some pr => withPip ++ [("deb_packages", packageValue pr)]
  match src.rpm with
  | none => withDeb
  | some pr => withDeb ++ [("rpm_packages", packageValue pr)]

/-- VitalsMonitor.collect_vitals continued: the seven probe results are
assembled in the order of the info dictionary literal, the first raising
probe aborting the whole collection. -/
def collect_vitals (src : Sources) : Except String (List (String × VitalsValue)) :=
  match src.system_info with
  | .error e => .error e
  | .ok sys =>
    match src.boot_time with
    | .error e => .error e
    | .ok boot =>
      match src.cpu_info with
      | .error e => .error e
      | .ok cpu =>
        match src.memory_info with
        | .error e => .error e
        | .ok mem =>
          match src.swap_info with
          | .error e => .error e
          | .ok swap =>
            match src.network_info with
            | .error e => .error e
            | .ok net =>
              .ok (packageSections src
                [("system_info", VitalsValue.blob sys),
                 ("boot_time", VitalsValue.blob boot),
                 ("cpu_info", VitalsValue.blob cpu),
                 ("memory_info", VitalsValue.blob mem),
                 ("swap_info", VitalsValue.blob swap),
                 ("disk_info", VitalsValue.disk
                   (get_disk_info src.disk_parts src.disk_read src.disk_write)),
                 ("network_info", VitalsValue.blob net)])

end VitalsMonitor

/-! ## Windows event log monitor

event_monitor.py EventLogMonitor.to_log_event, lines 170-203. -/

namespace EventLogMonitor

/-- The fixed allow list of record members, event_monitor.py line 180. -/
def allowList : List String :=
  ["ClosingRecordNumber", "Data", "EventCategory", "EventID", "EventType",
   "RecordNumber", "Reserved", "ReservedFlags", "Sid", "SourceName",
   "TimeGenerated", "TimeWritten"]

/-- The member loop of to_log_event, event_monitor.py lines 179-197: walk
the names dir reports, keep those outside the dunder namespace that are
in the allow list, lower case each kept name and render its value. The
getattr argument stands for attribute access on the record. -/
def memberProps (getattr : String → JValue) : List String → List LogProperty
  | [] => []
  | m :: rest =>
    if (!m.startsWith "__") && allowList.contains m then
      { name := m.toLower, value := renderValue (getattr m) } :: memberProps getattr rest
    else memberProps getattr rest

/-- EventLogMonitor.to_log_event, event_monitor.py lines 170-203: a
message property then a priority property are appended first, then the
allow listed members, and the event is tagged with source journald. -/
def to_log_event (dirMembers : List String) (getattr : String → JValue)
    (message level : String) : LogEvent :=
  { source := "journald",
    properties := { name := "message", value := message } ::
      { name := "priority", value := level } :: memberProps getattr dirMembers }

end EventLogMonitor

/-! ## Concrete instances used by the claim theorems -/

/-- A transport whose every response is HTTP 500 with a JSON body whose
detail member parses. -/
def parseable500 : Nat → Option HttpResponse :=
  fun _ => some { status := 500, body := ErrorBody.jsonDetail "server error" }

/-- A transport whose every response is HTTP 500 with a JSON body whose
detail member parses, used for the body shape comparison. -/
def detail500 : Nat → Option HttpResponse :=
  fun _ => some { status := 500, body := ErrorBody.jsonDetail "invalid event" }

/-- A transport whose every response is HTTP 500 with a body that does
not parse as JSON. -/
def raw500 : Nat → Option HttpResponse :=
  fun _ => some { status := 500, body := ErrorBody.notJson }

/-- A run transport under which every delivery attempt returns an
unparseable 500, so every delivery is retried to exhaustion. -/
def exhaustTransport : Nat → Nat → Option HttpResponse :=
  fun _ _ => some { status := 500, body := ErrorBody.notJson }

/-- A run transport under which every delivery attempt returns 201. -/
def okTransport : Nat → Nat → Option HttpResponse :=
  fun _ _ => some { status := 201, body := ErrorBody.jsonOther }

/-- A journal entry sample with a string field, a non string field and a
datetime field. -/
def sampleJournalEntry : List (String × JValue) :=
  [("MESSAGE", JValue.vStr "disk failure"),
   ("_PID", JValue.vOther "412"),
   ("__REALTIME_TIMESTAMP", JValue.vDatetime ⟨2024, 5, 17, 9, 30, 15, 123456⟩)]

/-- A poll sequence with a repeated MESSAGE, an empty MESSAGE, an entry
without MESSAGE and an invalid item. -/
def samplePollItems : List JournaldMonitor.JEntry :=
  [JournaldMonitor.JEntry.entry [("MESSAGE", JValue.vStr "kernel panic")],
   JournaldMonitor.JEntry.invalid,
   JournaldMonitor.JEntry.entry [("MESSAGE", JValue.vStr "")],
   JournaldMonitor.JEntry.entry [("PRIORITY", JValue.vStr "3")],
   JournaldMonitor.JEntry.entry [("MESSAGE", JValue.vStr "kernel panic")],
   JournaldMonitor.JEntry.entry [("MESSAGE", JValue.vStr "oom killed")]]

/-- Vitals probe results in which only the cpu probe fails. -/
def cpuFailSources : VitalsMonitor.Sources :=
  { system_info := Except.ok "linux",
    boot_time := Except.ok "2024-05-17T08:00:00",
    cpu_info := Except.error "cpu probe failed",
    memory_info := Except.ok "mem",
    swap_info := Except.ok "swap",
    disk_parts := [({ device := "/dev/sda1", mountpoint := "/", fstype := "ext4" },
        Except.ok { total := 1000, used := 400, free := 600, percent := 40 })],
    disk_read := 7,
    disk_write := 9,
    network_info := Except.ok "net",
    pip := none,
    dpkg := none,
    rpm := none }

/-! ## Lemmas about the delivery loop -/

theorem deliverGo_calls_le (t : Nat → Option HttpResponse) (maxA : Nat) :
    ∀ fuel k, deliveryCalls (deliverGo t maxA k fuel) ≤ max maxA (k + 1) := by
  intro fuel
  induction fuel with
  | zero =>
    intro k
    simp only [deliverGo]
    cases attemptOutcome (t k) with
    | success => simp [deliveryCalls]
    | loggedError s d => simp [deliveryCalls]
    | raised => simp [deliveryCalls]
  | succ f ih =>
    intro k
    simp only [deliverGo]
    cases attemptOutcome (t k) with
    | success => simp [deliveryCalls]
    | loggedError s d => simp [deliveryCalls]
    | raised =>
      by_cases h : maxA ≤ k + 1
      · simp [h, deliveryCalls]
      · simp only [h, if_false]
        have hbound := ih (k + 1)
        have h1 : max maxA (k + 1 + 1) = maxA := Nat.max_eq_left (by omega)
        have h2 : maxA ≤ max maxA (k + 1) := Nat.le_max_left _ _
        omega

theorem deliver_calls_le (t : Nat → Option HttpResponse) (maxA : Nat) :
    deliveryCalls (deliver t maxA) ≤ max maxA 1 :=
  deliverGo_calls_le t maxA maxA 0

/-! ## Lemmas about the journald monitoring run -/

theorem journald_fold_dedupe_mem (t : Nat → Nat → Option HttpResponse) (r : Nat)
    (entries : List JournaldMonitor.JEntry) (m : String) (hm : m ≠ "") :
    ∀ st : JournaldMonitor.RunState,
      (m ∈ (entries.foldl (JournaldMonitor.runStep t r) st).dedupe ↔
        (m ∈ st.dedupe ∨
          entries.any (fun e => JournaldMonitor.entryMessage e == some m) = true)) := by
  induction entries with
  | nil => intro st; simp
  | cons e es ih =>
    intro st
    rw [List.foldl_cons, ih, List.any_cons, Bool.or_eq_true]
    cases he : JournaldMonitor.entryMessage e with
    | none => simp [JournaldMonitor.runStep, he]
    | some msg =>
      by_cases h1 : msg = ""
      · subst h1
        simp [JournaldMonitor.runStep, he, Ne.symm hm]
      · by_cases h2 : msg ∈ st.dedupe
        · by_cases h3 : msg = m
          · subst h3
            simp [JournaldMonitor.runStep, he, h1, h2]
          · simp [JournaldMonitor.runStep, he, h1, h2, h3]
        · by_cases h3 : msg = m
          · subst h3
            simp [JournaldMonitor.runStep, he, h1, h2]
          · simp [JournaldMonitor.runStep, he, h1, h2, h3]
            tauto

theorem journald_fold_count (t : Nat → Nat → Option HttpResponse) (r : Nat)
    (entries : List JournaldMonitor.JEntry) (m : String) (hm : m ≠ "") :
    ∀ st : JournaldMonitor.RunState,
      (entries.foldl (JournaldMonitor.runStep t r) st).emitted.count m =
        st.emitted.count m +
          (if m ∈ st.dedupe then 0
           else if entries.any (fun e => JournaldMonitor.entryMessage e == some m) then 1
           else 0) := by
  induction entries with
  | nil => intro st; simp
  | cons e es ih =>
    intro st
    rw [List.foldl_cons, ih, List.any_cons]
    cases he : JournaldMonitor.entryMessage e with
    | none => simp [JournaldMonitor.runStep, he]
    | some msg =>
      by_cases h1 : msg = ""
      · subst h1
        simp [JournaldMonitor.runStep, he, Ne.symm hm]
      · by_cases h2 : msg ∈ st.dedupe
        · by_cases h3 : msg = m
          · subst h3
            simp [JournaldMonitor.runStep, he, h1, h2]
          · simp [JournaldMonitor.runStep, he, h1, h2, h3]
        · by_cases h3 : msg = m
          · subst h3
            simp [JournaldMonitor.runStep, he, h1, h2, List.count_append,
              List.count_singleton]
          · simp [JournaldMonitor.runStep, he, h1, h2, h3, List.count_append,
              List.count_singleton, Ne.symm h3]

theorem journald_fold_emitted_sound (t : Nat → Nat → Option HttpResponse) (r : Nat)
    (entries : List JournaldMonitor.JEntry) :
    ∀ st : JournaldMonitor.RunState,
      ∀ x, x ∈ (entries.foldl (JournaldMonitor.runStep t r) st).emitted →
        x ∈ st.emitted ∨
          (x ≠ "" ∧ entries.any (fun e => JournaldMonitor.entryMessage e == some x) = true) := by
  induction entries with
  | nil => intro st x hx; exact Or.inl hx
  | cons e es ih =>
    intro st x hx
    rw [List.foldl_cons] at hx
    rcases ih _ x hx with hmem | ⟨hne, hany⟩
    · cases he : JournaldMonitor.entryMessage e with
      | none =>
        simp [JournaldMonitor.runStep, he] at hmem
        exact Or.inl hmem
      | some msg =>
        by_cases h1 : msg = ""
        · subst h1
          simp [JournaldMonitor.runStep, he] at hmem
          exact Or.inl hmem
        · by_cases h2 : msg ∈ st.dedupe
          · simp [JournaldMonitor.runStep, he, h1, h2] at hmem
            exact Or.inl hmem
          · simp [JournaldMonitor.runStep, he, h1, h2, List.mem_append] at hmem
            rcases hmem with hmem | rfl
            · exact Or.inl hmem
            · exact Or.inr ⟨h1, by simp [List.any_cons, he]⟩
    · exact Or.inr ⟨hne, by simp [List.any_cons, hany]⟩

theorem journald_fold_outcome_indep (t t' : Nat → Nat → Option HttpResponse) (r r' : Nat)
    (entries : List JournaldMonitor.JEntry) :
    ∀ st st' : JournaldMonitor.RunState, st.dedupe = st'.dedupe → st.emitted = st'.emitted →
      ((entries.foldl (JournaldMonitor.runStep t r) st).dedupe =
          (entries.foldl (JournaldMonitor.runStep t' r') st').dedupe ∧
        (entries.foldl (JournaldMonitor.runStep t r) st).emitted =
          (entries.foldl (JournaldMonitor.runStep t' r') st').emitted) := by
  induction entries with
  | nil => intro st st' hd he; exact ⟨hd, he⟩
  | cons e es ih =>
    intro st st' hd he
    rw [List.foldl_cons, List.foldl_cons]
    apply ih
    · cases hm : JournaldMonitor.entryMessage e with
      | none => simp [JournaldMonitor.runStep, hm, hd]
      | some msg =>
        by_cases h1 : msg = ""
        · simp [JournaldMonitor.runStep, hm, h1, hd]
        · by_cases h2 : msg ∈ st.dedupe
          · simp [JournaldMonitor.runStep, hm, h1, h2, hd ▸ h2, hd]
          · simp [JournaldMonitor.runStep, hm, h1, h2, hd ▸ h2, hd]
    · cases hm : JournaldMonitor.entryMessage e with
      | none => simp [JournaldMonitor.runStep, hm, he]
      | some msg =>
        by_cases h1 : msg = ""
        · simp [JournaldMonitor.runStep, hm, h1, he]
        · by_cases h2 : msg ∈ st.dedupe
          · simp [JournaldMonitor.runStep, hm, h1, h2, hd ▸ h2, he]
          · simp [JournaldMonitor.runStep, hm, h1, h2, hd ▸ h2, he]

/-! ## Lemmas about the normalizers and the vitals collection -/

theorem journald_to_log_event_length (entry : List (String × JValue)) :
    (JournaldMonitor.to_log_event entry).length = entry.length := by
  induction entry with
  | nil => rfl
  | cons p rest ih => simp [JournaldMonitor.to_log_event, ih]

theorem journald_to_log_event_getD (entry : List (String × JValue)) :
    ∀ i, i < entry.length →
      (JournaldMonitor.to_log_event entry).getD i { name := "", value := "" } =
        { name := ((entry.getD i ("", JValue.vStr "")).1).toLower,
          value := renderValue (entry.getD i ("", JValue.vStr "")).2 } := by
  induction entry with
  | nil => intro i hi; simp at hi
  | cons p rest ih =>
    intro i hi
    cases i with
    | zero => simp [JournaldMonitor.to_log_event]
    | succ j =>
      simp only [JournaldMonitor.to_log_event, List.getD_cons_succ]
      exact ih j (by simpa using hi)

theorem eventlog_memberProps_eq_filter_map (g : String → JValue) (l : List String) :
    EventLogMonitor.memberProps g l =
      (l.filter (fun m => (!m.startsWith "__") && EventLogMonitor.allowList.contains m)).map
        (fun m => { name := m.toLower, value := renderValue (g m) }) := by
  induction l with
  | nil => rfl
  | cons m rest ih =>
    simp only [EventLogMonitor.memberProps, List.filter_cons]
    by_cases h : ((!m.startsWith "__") && EventLogMonitor.allowList.contains m) = true
    · rw [if_pos h, if_pos h, List.map_cons, ih]
    · rw [if_neg h, if_neg h, ih]

theorem vitals_diskEntries_eq_filterMap
    (parts : List (DiskPartition × Except Unit DiskUsage)) :
    VitalsMonitor.diskEntries parts =
      parts.filterMap (fun pr => match pr.2 with
        | Except.ok u => some (partitionEntry pr.1 u)
        | Except.error _ => none) := by
  induction parts with
  | nil => rfl
  | cons pr rest ih =>
    rcases pr with ⟨p, u⟩
    cases u with
    | error e => simp [VitalsMonitor.diskEntries, List.filterMap_cons, ih]
    | ok u => simp [VitalsMonitor.diskEntries, List.filterMap_cons, ih]

theorem vitals_mem_packageSections (src : VitalsMonitor.Sources)
    (base : List (String × VitalsMonitor.VitalsValue))
    (x : String × VitalsMonitor.VitalsValue) (hx : x ∈ base) :
    x ∈ VitalsMonitor.packageSections src base := by
  rcases hp : src.pip with _ | p <;> rcases hq : src.dpkg with _ | q <;>
    rcases hw : src.rpm with _ | w <;>
    simp [VitalsMonitor.packageSections, hp, hq, hw, List.mem_append, hx]

/-! ## Claim theorems -/

/-- Claim C1. The claim states that every non-201 response is retryable
and that a transport always returning 500 yields exactly max_attempts
POST calls followed by an exhaustion report. On the code this fails: the
non-201 branch of the attempt body logs the parsed detail and completes
without raising, so tenacity treats the attempt as successful and stops.
This theorem evaluates the embedded loop at the failing input: with a
ceiling of 3 and a transport always answering 500 with a JSON detail
body, the delivery makes exactly one POST call and ends as a logged,
handled error rather than an exhaustion report. -/
theorem c1_parseable_error_body_ends_loop_after_one_post :
    deliver parseable500 3 = DeliveryResult.handledError 1 500 "server error" ∧
    deliveryCalls (deliver parseable500 3) = 1 :=
  ⟨rfl, rfl⟩

/-- Claim C2, counterexample. The claim states that delivery failure
never raises out of the monitor loop on any delivery path including the
vitals delivery; but VitalsMonitor.run has no retry loop and no handler,
so a 500 response whose body does not parse as JSON makes the error
extraction raise and the exception leaves the vitals run. -/
theorem c2_vitals_unparseable_error_raises_out :
    vitalsRun (some { status := 500, body := ErrorBody.notJson }) =
      VitalsRunResult.raisedOut :=
  rfl

/-- Claim C2, amended. For the journald and shell executor deliveries
the number of POST calls never exceeds the attempt ceiling (with at
least one attempt always made) and every outcome is returned to the loop
rather than queued or raised. The vitals delivery performs a single
attempt: an exception leaves the vitals run exactly when the response is
absent or is a non-201 whose body carries no parseable detail member. -/
theorem c2_attempts_bounded_and_vitals_escape (t : Nat → Option HttpResponse)
    (n : Nat) (resp : Option HttpResponse) :
    deliveryCalls (deliver t n) ≤ max n 1 ∧
    (vitalsRun resp = VitalsRunResult.raisedOut ↔
      (resp = none ∨ ∃ r, resp = some r ∧ r.status ≠ 201 ∧ detailOf r.body = none)) := by
  refine ⟨deliver_calls_le t n, ?_⟩
  cases resp with
  | none => simp [vitalsRun]
  | some r =>
    by_cases h : r.status = 201
    · simp [vitalsRun, h]
    · cases hb : detailOf r.body with
      | none => simp [vitalsRun, h, hb]
      | some d => simp [vitalsRun, h, hb]

/-- Claim C3. The Signature header of every delivered payload is the
base64 encoded RSA-SHA256 signature computed over the exact byte
sequence posted as the request body (the definition signs the same
payload value it posts, with no re-serialization), and the headers sent
are exactly Authorization Bearer token, Client-ID, Content-Type
application/json and Signature. -/
theorem c3_signature_over_posted_bytes (rsa : List Nat → List Nat)
    (token clientId url : String) (payload : List Nat) :
    (buildSignedRequest (SecurityProvider.sign rsa) token clientId url payload).body =
      payload ∧
    (buildSignedRequest (SecurityProvider.sign rsa) token clientId url payload).headers =
      [("Authorization", "Bearer " ++ token), ("Client-ID", clientId),
       ("Content-Type", "application/json"),
       ("Signature", SecurityProvider.sign rsa
         (buildSignedRequest (SecurityProvider.sign rsa) token clientId url payload).body)] ∧
    SecurityProvider.sign rsa payload = String.mk (base64Encode (rsa payload)) :=
  ⟨rfl, rfl, rfl⟩

/-- Claim C4. Within one monitoring run started from an empty dedupe
set, any given non empty message text is submitted for delivery exactly
once across any sequence of journal entries carrying identical MESSAGE
values, an empty MESSAGE is never submitted, and everything submitted is
a non empty MESSAGE of some input entry. -/
theorem c4_dedup_emits_each_message_once (t : Nat → Nat → Option HttpResponse)
    (retries : Nat) (entries : List JournaldMonitor.JEntry) (m : String) (hm : m ≠ "") :
    ((JournaldMonitor.run t retries entries).emitted.count m =
      if entries.any (fun e => JournaldMonitor.entryMessage e == some m) then 1 else 0) ∧
    (JournaldMonitor.run t retries entries).emitted.count "" = 0 ∧
    (JournaldMonitor.run t retries entries).emitted.all
      (fun x => (!(x == "")) &&
        entries.any (fun e => JournaldMonitor.entryMessage e == some x)) = true := by
  have hcount := journald_fold_count t retries entries m hm ⟨[], [], []⟩
  have hsound := journald_fold_emitted_sound t retries entries ⟨[], [], []⟩
  refine ⟨?_, ?_, ?_⟩
  · simpa [JournaldMonitor.run] using hcount
  · rw [List.count_eq_zero]
    intro hmem
    rcases hsound "" hmem with h | ⟨hne, _⟩
    · simp at h
    · exact hne rfl
  · rw [List.all_eq_true]
    intro x hx
    rcases hsound x hx with h | ⟨hne, hany⟩
    · simp at h
    · simp [hne, hany]

/-- Claim C4, witness: the dedup behaviour evaluated on a concrete poll
sequence containing a repeated, an empty and an absent MESSAGE, under a
transport that exhausts every delivery. -/
theorem c4_dedup_emits_each_message_once_check :
    ("kernel panic" ≠ "") ∧
    (((JournaldMonitor.run exhaustTransport 3 samplePollItems).emitted.count "kernel panic" =
      if samplePollItems.any
          (fun e => JournaldMonitor.entryMessage e == some "kernel panic") then 1 else 0) ∧
    (JournaldMonitor.run exhaustTransport 3 samplePollItems).emitted.count "" = 0 ∧
    (JournaldMonitor.run exhaustTransport 3 samplePollItems).emitted.all
      (fun x => (!(x == "")) &&
        samplePollItems.any
          (fun e => JournaldMonitor.entryMessage e == some x)) = true) :=
  ⟨by decide,
   c4_dedup_emits_each_message_once exhaustTransport 3 samplePollItems "kernel panic"
     (by decide)⟩

/-- Claim C5. ShellExecutor.execute runs the command text through the
shell oracle, never raises on a nonzero exit (the result is total in the
observed exit code), captures stdout and stderr, and its total_time
equals the difference of end_date and start_date in seconds, exactly as
a rational and hence within any floating point tolerance. -/
theorem c5_execute_result_fields (shell : String → CompletedProc)
    (start stop : PyDateTime) (command : ServerCommand) :
    (ShellExecutor.execute shell start stop command).exit_code =
      (shell command.command).returncode ∧
    (ShellExecutor.execute shell start stop command).stdout =
      some (shell command.command).stdout ∧
    (ShellExecutor.execute shell start stop command).stderr =
      some (shell command.command).stderr ∧
    (ShellExecutor.execute shell start stop command).start_date = start ∧
    (ShellExecutor.execute shell start stop command).end_date = stop ∧
    (ShellExecutor.execute shell start stop command).total_time =
      ((dtToMicros (ShellExecutor.execute shell start stop command).end_date -
        dtToMicros (ShellExecutor.execute shell start stop command).start_date : Int) : ℚ) /
        1000000 :=
  ⟨rfl, rfl, rfl, rfl, rfl, rfl⟩

/-- Claim C6. The journal normalizer output has exactly one property per
source field (nothing dropped), in encounter order: the property at any
index i carries the lower cased name and the rendered value of the
source field at the same index, datetime values render through
isoformat, and the event is tagged with source journald. -/
theorem c6_journal_normalizer_fields (entry : List (String × JValue)) (i : Nat)
    (h : i < entry.length) (tstamp : PyDateTime) :
    (JournaldMonitor.to_log_event entry).length = entry.length ∧
    ((JournaldMonitor.to_log_event entry).getD i { name := "", value := "" }).name =
      ((entry.getD i ("", JValue.vStr "")).1).toLower ∧
    ((JournaldMonitor.to_log_event entry).getD i { name := "", value := "" }).value =
      renderValue (entry.getD i ("", JValue.vStr "")).2 ∧
    renderValue (JValue.vDatetime tstamp) = isoformat tstamp ∧
    (JournaldMonitor.toLogEventFull entry).source = "journald" := by
  refine ⟨journald_to_log_event_length entry, ?_, ?_, rfl, rfl⟩
  · rw [journald_to_log_event_getD entry i h]
  · rw [journald_to_log_event_getD entry i h]

/-- Claim C6, witness: the normalizer evaluated on a concrete journal
entry at the index of its datetime field. -/
theorem c6_journal_normalizer_fields_check :
    (2 < sampleJournalEntry.length) ∧
    ((JournaldMonitor.to_log_event sampleJournalEntry).length = sampleJournalEntry.length ∧
    ((JournaldMonitor.to_log_event sampleJournalEntry).getD 2
        { name := "", value := "" }).name =
      ((sampleJournalEntry.getD 2 ("", JValue.vStr "")).1).toLower ∧
    ((JournaldMonitor.to_log_event sampleJournalEntry).getD 2
        { name := "", value := "" }).value =
      renderValue (sampleJournalEntry.getD 2 ("", JValue.vStr "")).2 ∧
    renderValue (JValue.vDatetime ⟨2024, 5, 17, 9, 30, 15, 123456⟩) =
      isoformat ⟨2024, 5, 17, 9, 30, 15, 123456⟩ ∧
    (JournaldMonitor.toLogEventFull sampleJournalEntry).source = "journald") :=
  ⟨by decide,
   c6_journal_normalizer_fields sampleJournalEntry 2 (by decide)
     ⟨2024, 5, 17, 9, 30, 15, 123456⟩⟩

/-- Claim C7, counterexample. The claim states that a failure in any
individual vitals sub-category is caught and only that sub-category is
omitted; but collect_vitals evaluates its probes with no handler, so
with every probe healthy except the cpu probe the whole collection
aborts with the probe error instead of omitting cpu_info. -/
theorem c7_cpu_probe_failure_aborts_whole_collection :
    VitalsMonitor.collect_vitals cpuFailSources = Except.error "cpu probe failed" :=
  rfl

/-- Claim C7, amended. A permission denied error reading one disk
partition omits only that partition entry (the other partitions and the
counters section of disk_info survive, in order), and the collection
succeeds, with the disk_info section present in the payload, exactly
when the six top level probes (system, boot time, cpu, memory, swap,
network) all succeed: disk partition failures never abort the
collection, while a failure of any top level probe aborts it as a
whole. -/
theorem c7_disk_containment_and_probe_abort (src : VitalsMonitor.Sources)
    (parts : List (DiskPartition × Except Unit DiskUsage)) (readBytes writeBytes : Nat) :
    (VitalsMonitor.get_disk_info parts readBytes writeBytes).partitions =
      parts.filterMap (fun pr => match pr.2 with
        | Except.ok u => some (partitionEntry pr.1 u)
        | Except.error _ => none) ∧
    (VitalsMonitor.get_disk_info parts readBytes writeBytes).counters =
      { total_read := readBytes, total_write := writeBytes } ∧
    ((∃ v, VitalsMonitor.collect_vitals src = Except.ok v ∧
        ("disk_info", VitalsMonitor.VitalsValue.disk
          (VitalsMonitor.get_disk_info src.disk_parts src.disk_read src.disk_write)) ∈ v) ↔
      ((∃ a, src.system_info = Except.ok a) ∧ (∃ a, src.boot_time = Except.ok a) ∧
       (∃ a, src.cpu_info = Except.ok a) ∧ (∃ a, src.memory_info = Except.ok a) ∧
       (∃ a, src.swap_info = Except.ok a) ∧ (∃ a, src.network_info = Except.ok a))) := by
  refine ⟨vitals_diskEntries_eq_filterMap parts, rfl, ?_⟩
  constructor
  · rintro ⟨v, hv, -⟩
    rcases hsys : src.system_info with e1 | a1
    · simp [VitalsMonitor.collect_vitals, hsys] at hv
    rcases hboot : src.boot_time with e2 | a2
    · simp [VitalsMonitor.collect_vitals, hsys, hboot] at hv
    rcases hcpu : src.cpu_info with e3 | a3
    · simp [VitalsMonitor.collect_vitals, hsys, hboot, hcpu] at hv
    rcases hmem : src.memory_info with e4 | a4
    · simp [VitalsMonitor.collect_vitals, hsys, hboot, hcpu, hmem] at hv
    rcases hswap : src.swap_info with e5 | a5
    · simp [VitalsMonitor.collect_vitals, hsys, hboot, hcpu, hmem, hswap] at hv
    rcases hnet : src.network_info with e6 | a6
    · simp [VitalsMonitor.collect_vitals, hsys, hboot, hcpu, hmem, hswap, hnet] at hv
    exact ⟨⟨a1, rfl⟩, ⟨a2, rfl⟩, ⟨a3, rfl⟩, ⟨a4, rfl⟩, ⟨a5, rfl⟩, ⟨a6, rfl⟩⟩
  · rintro ⟨⟨a1, h1⟩, ⟨a2, h2⟩, ⟨a3, h3⟩, ⟨a4, h4⟩, ⟨a5, h5⟩, ⟨a6, h6⟩⟩
    simp only [VitalsMonitor.collect_vitals, h1, h2, h3, h4, h5, h6]
    exact ⟨_, rfl, vitals_mem_packageSections src _ _ (by simp)⟩

/-- Claim C8. The claim states that an unparseable error body does not
crash the attempt loop and that the retry and exhaustion behaviour is
unaffected by the shape of the body. The first part holds on the code
(the parse exception is caught by the retry machinery and exhaustion is
logged), but the second fails: with the same always-500 transport and a
ceiling of 3, a body with a parseable detail ends the loop after one
POST while an unparseable body is retried to exhaustion with three
POSTs, so the body shape decides the retry behaviour. This theorem
evaluates the embedded loop at both failing inputs. -/
theorem c8_retry_depends_on_error_body_shape :
    deliver detail500 3 = DeliveryResult.handledError 1 500 "invalid event" ∧
    deliver raw500 3 = DeliveryResult.exhausted 3 ∧
    deliveryCalls (deliver detail500 3) ≠ deliveryCalls (deliver raw500 3) :=
  ⟨rfl, rfl, by decide⟩

/-- Claim C9. The dedup set of one journald monitoring run is updated
regardless of delivery outcome: the dedupe set and the sequence of
submitted messages do not depend on the transport or the retry ceiling
at all, and any non empty message carried by some input entry ends up in
the dedupe set and is submitted exactly once, even when its delivery was
exhausted. -/
theorem c9_dedup_updated_regardless_of_outcome
    (t tother : Nat → Nat → Option HttpResponse) (r rother : Nat)
    (entries : List JournaldMonitor.JEntry) (m : String) (hm : m ≠ "")
    (hp : entries.any (fun e => JournaldMonitor.entryMessage e == some m) = true) :
    (JournaldMonitor.run t r entries).dedupe =
      (JournaldMonitor.run tother rother entries).dedupe ∧
    (JournaldMonitor.run t r entries).emitted =
      (JournaldMonitor.run tother rother entries).emitted ∧
    m ∈ (JournaldMonitor.run t r entries).dedupe ∧
    (JournaldMonitor.run t r entries).emitted.count m = 1 := by
  have hind := journald_fold_outcome_indep t tother r rother entries
    ⟨[], [], []⟩ ⟨[], [], []⟩ rfl rfl
  have hmem := journald_fold_dedupe_mem t r entries m hm ⟨[], [], []⟩
  have hcount := journald_fold_count t r entries m hm ⟨[], [], []⟩
  refine ⟨hind.1, hind.2, ?_, ?_⟩
  · rw [JournaldMonitor.run, hmem]
    simp [hp]
  · rw [JournaldMonitor.run, hcount]
    simp [hp]

/-- Claim C9, witness: a run over a poll sequence with a repeated
MESSAGE, compared between a transport that exhausts every delivery and a
transport that accepts every delivery. -/
theorem c9_dedup_updated_regardless_of_outcome_check :
    ("kernel panic" ≠ "" ∧
      samplePollItems.any
        (fun e => JournaldMonitor.entryMessage e == some "kernel panic") = true) ∧
    ((JournaldMonitor.run exhaustTransport 3 samplePollItems).dedupe =
      (JournaldMonitor.run okTransport 3 samplePollItems).dedupe ∧
    (JournaldMonitor.run exhaustTransport 3 samplePollItems).emitted =
      (JournaldMonitor.run okTransport 3 samplePollItems).emitted ∧
    "kernel panic" ∈ (JournaldMonitor.run exhaustTransport 3 samplePollItems).dedupe ∧
    (JournaldMonitor.run exhaustTransport 3 samplePollItems).emitted.count
      "kernel panic" = 1) :=
  ⟨⟨by decide, by decide⟩,
   c9_dedup_updated_regardless_of_outcome exhaustTransport okTransport 3 3
     samplePollItems "kernel panic" (by decide) (by decide)⟩

/-- Claim C10. The Windows event log normalizer tags every LogEvent it
produces with source journald, the same source tag the journal
normalizer uses, and its property list starts with a message property
and a priority property followed exactly by the allow listed record
members, lower cased and rendered. -/
theorem c10_eventlog_source_tag_and_prepended_props (dirMembers : List String)
    (g : String → JValue) (message level : String)
    (jentry : List (String × JValue)) :
    (EventLogMonitor.to_log_event dirMembers g message level).source = "journald" ∧
    (EventLogMonitor.to_log_event dirMembers g message level).source =
      (JournaldMonitor.toLogEventFull jentry).source ∧
    (EventLogMonitor.to_log_event dirMembers g message level).properties.getD 0
        { name := "", value := "" } = { name := "message", value := message } ∧
    (EventLogMonitor.to_log_event dirMembers g message level).properties.getD 1
        { name := "", value := "" } = { name := "priority", value := level } ∧
    (EventLogMonitor.to_log_event dirMembers g message level).properties.drop 2 =
      (dirMembers.filter
        (fun m => (!m.startsWith "__") && EventLogMonitor.allowList.contains m)).map
        (fun m => { name := m.toLower, value := renderValue (g m) }) := by
  refine ⟨rfl, rfl, rfl, rfl, ?_⟩
  simpa [EventLogMonitor.to_log_event] using eventlog_memberProps_eq_filter_map g dirMembers
